import Mathlib

/-!
Verification of the waypoint subsystem of `src/libs/actions/Transaction.ts`.

The module mutates transaction records held in a reactive key-value store
(Onyx).  We embed the data the module manipulates, the write operations it
issues (method, key, payload), and the store's deep-merge semantics, and prove
the documented properties of `addStop`, `saveWaypoint`, `removeWaypoint`,
`updateWaypoints` and the route-request helpers.

JS objects with string keys preserve insertion order for non-integer-like keys
such as `waypoint0`; we model such objects as association lists.  Optional /
possibly-`undefined` fields are modelled as `Option`.
-/

namespace Txn

/-- A waypoint record (`RecentWaypoint`): an optionally geocoded address.
The declaration of the type is not among the excerpted files; fields follow
the spec's data model (SS3): an optional structured address with latitude and
longitude once geocoded.  `Option` models presence of the JS property. -/
structure Waypoint where
  address : Option String
  lat : Option Int
  lng : Option Int
  deriving DecidableEq

/-- The empty waypoint object `{}` (a pending user-input slot). -/
def emptyWaypoint : Waypoint := ⟨none, none, none⟩

/-- A `WaypointCollection`: a JS object mapping keys `waypoint0`, `waypoint1`, …
to waypoints.  Entry values may be `null` (`none`), as `removeWaypoint`'s
`removed[0] ?? {}` anticipates. -/
abbrev WaypointMap := List (String × Option Waypoint)

structure Geometry where
  coordinates : Option (List (Int × Int))
  deriving DecidableEq

structure Route where
  distance : Option Int
  geometry : Option Geometry
  deriving DecidableEq

/-- The `routes` field of a transaction; the module only ever touches
`routes.route0`. -/
structure Routes where
  route0 : Option Route
  deriving DecidableEq

/-- The `errorFields` of a transaction; the module only ever touches the
`route` error channel. -/
structure ErrorFields where
  route : Option String
  deriving DecidableEq

/-- The `comment` of a transaction, restricted to the fields this module
reads or writes. -/
structure Comment where
  waypoints : Option WaypointMap
  isLoading : Option Bool
  deriving DecidableEq

/-- A transaction record, restricted to the fields `Transaction.ts` reads or
writes (the scalar fields are exactly the ones `removeWaypoint` defaults). -/
structure Transaction where
  transactionID : Option String
  amount : Option Int
  billable : Option Bool
  category : Option String
  created : Option String
  currency : Option String
  merchant : Option String
  reportID : Option String
  tag : Option String
  pendingAction : Option String
  comment : Option Comment
  errorFields : Option ErrorFields
  routes : Option Routes
  deriving DecidableEq

/-- The empty object `{}` in transaction position. -/
def emptyTransaction : Transaction :=
  ⟨none, none, none, none, none, none, none, none, none, none, none, none, none⟩

def emptyGeometry : Geometry := ⟨none⟩

def emptyRoute : Route := ⟨none, none⟩

def emptyRoutes : Routes := ⟨none⟩

def emptyErrorFields : ErrorFields := ⟨none⟩

def emptyComment : Comment := ⟨none, none⟩

/-! ### Merge payloads and the store's merge semantics

Modelled from the spec: the reactive store (Onyx) is an external collaborator,
not part of the excerpted sources.  Per the spec (SS6) its `merge` is a
deep-structural merge that cannot delete keys; an explicit `null` in a payload
overwrites the stored value (it does not remove the key — the workaround
comment at `removeWaypoint` documents exactly this), and fields absent from a
payload keep their stored value.  Arrays are replaced wholesale.

A payload leaf is therefore three-valued: absent, explicit `null`, or a
value. -/
inductive FieldPatch (α : Type) where
  | absent : FieldPatch α
  | null : FieldPatch α
  | val : α → FieldPatch α
  deriving DecidableEq

/-- Result of merging a payload leaf over a stored leaf. -/
def FieldPatch.apply {α : Type} : FieldPatch α → Option α → Option α
  | .absent, o => o
  | .null, _ => none
  | .val a, _ => some a

structure GeometryPatch where
  coordinates : FieldPatch (List (Int × Int))
  deriving DecidableEq

structure RoutePatch where
  distance : FieldPatch Int
  geometry : Option GeometryPatch
  deriving DecidableEq

structure RoutesPatch where
  route0 : Option RoutePatch
  deriving DecidableEq

structure ErrorFieldsPatch where
  route : FieldPatch String
  deriving DecidableEq

/-- A payload object under `comment`: an optional waypoint-map object patch
and an optional `isLoading` leaf. -/
structure CommentPatch where
  waypoints : Option WaypointMap
  isLoading : FieldPatch Bool
  deriving DecidableEq

/-- A merge payload against a transaction key, covering the payload shapes
`Transaction.ts` produces. -/
structure TransactionPatch where
  comment : Option CommentPatch
  errorFields : Option ErrorFieldsPatch
  routes : Option RoutesPatch
  deriving DecidableEq

/-- Field of the payload waypoint present: it overrides; absent: the stored
value is kept. -/
def overrideField {α : Type} : Option α → Option α → Option α
  | o, none => o
  | _, some v => some v

/-- Deep merge of a payload waypoint object over a stored one. -/
def mergeWaypoint (old new : Waypoint) : Waypoint :=
  ⟨overrideField old.address new.address,
   overrideField old.lat new.lat,
   overrideField old.lng new.lng⟩

/-- Deep merge of a waypoint-map entry value: an explicit `null` in the payload
overwrites, an object payload deep-merges into a stored object and replaces a
stored `null`. -/
def mergeWaypointValue : Option Waypoint → Option Waypoint → Option Waypoint
  | _, none => none
  | none, some nw => some nw
  | some ow, some nw => some (mergeWaypoint ow nw)

/-- Key-by-key deep merge of a waypoint-map payload over a stored waypoint map:
stored keys keep their positions (values merged where the payload also has the
key); payload-only keys are appended in payload order.  This is JS object
deep-merge; in particular stored keys absent from the payload survive. -/
def mergeWaypointMap (old new : WaypointMap) : WaypointMap :=
  (old.map fun e =>
    match new.lookup e.1 with
    | some nv => (e.1, mergeWaypointValue e.2 nv)
    | none => e)
  ++ new.filter fun e => (old.lookup e.1).isNone

def Geometry.applyPatch (g : Geometry) (p : GeometryPatch) : Geometry :=
  ⟨p.coordinates.apply g.coordinates⟩

def Route.applyPatch (r : Route) (p : RoutePatch) : Route :=
  ⟨p.distance.apply r.distance,
   match p.geometry with
   | none => r.geometry
   | some gp => some ((r.geometry.getD emptyGeometry).applyPatch gp)⟩

def Routes.applyPatch (rs : Routes) (p : RoutesPatch) : Routes :=
  ⟨match p.route0 with
   | none => rs.route0
   | some rp => some ((rs.route0.getD emptyRoute).applyPatch rp)⟩

def ErrorFields.applyPatch (e : ErrorFields) (p : ErrorFieldsPatch) : ErrorFields :=
  ⟨p.route.apply e.route⟩

def Comment.applyPatch (c : Comment) (p : CommentPatch) : Comment :=
  ⟨match p.waypoints with
   | none => c.waypoints
   | some m => some (mergeWaypointMap (c.waypoints.getD []) m),
   p.isLoading.apply c.isLoading⟩

/-- Result of `Onyx.merge` of a transaction payload into the stored record (a
missing record behaves as the empty object, so merging into an absent key is
`emptyTransaction.applyPatch`). -/
def Transaction.applyPatch (t : Transaction) (p : TransactionPatch) : Transaction :=
  { t with
    comment :=
      match p.comment with
      | none => t.comment
      | some cp => some ((t.comment.getD emptyComment).applyPatch cp),
    errorFields :=
      match p.errorFields with
      | none => t.errorFields
      | some ep => some ((t.errorFields.getD emptyErrorFields).applyPatch ep),
    routes :=
      match p.routes with
      | none => t.routes
      | some rp => some ((t.routes.getD emptyRoutes).applyPatch rp) }

/-! ### Store addresses and write operations -/

/-- Store keys the module writes to: `ONYXKEYS.COLLECTION.TRANSACTION` (the
committed record) or `ONYXKEYS.COLLECTION.TRANSACTION_DRAFT` (the draft
record) followed by a transaction id, and the global recent-waypoints NVP key.
The two collection prefixes are distinct strings, so the keys are modelled as
an inductive type. -/
inductive OnyxKey where
  | transactionKey : String → OnyxKey
  | transactionDraftKey : String → OnyxKey
  | nvpRecentWaypoints : OnyxKey
  deriving DecidableEq

inductive OnyxMethod where
  | merge : OnyxMethod
  | set : OnyxMethod
  deriving DecidableEq

/-- A value written to the store: a merge payload against a transaction key, a
whole transaction (for `Onyx.set`), or the recent-waypoints list (arrays are
replaced wholesale by a merge, so the payload is the persisted list). -/
inductive OnyxValue where
  | txPatch : TransactionPatch → OnyxValue
  | txFull : Transaction → OnyxValue
  | waypointList : List Waypoint → OnyxValue
  deriving DecidableEq

structure OnyxOp where
  method : OnyxMethod
  key : OnyxKey
  value : OnyxValue
  deriving DecidableEq

/-- The `{optimisticData, successData, failureData}` bundle passed to
`API.read`. -/
structure OnyxData where
  optimisticData : List OnyxOp
  successData : List OnyxOp
  failureData : List OnyxOp
  deriving DecidableEq

/-- Modelled from the spec: `CONST.YOUR_LOCATION_TEXT` is defined outside the
excerpted files; per the source comment it is the sentinel address whose text
is shown as the current-location suggestion. -/
def YOUR_LOCATION_TEXT : String := "Your Location"

/-- The template literal `waypoint${index}` applied to a string index
(`saveWaypoint`). -/
def waypointKeyStr (index : String) : String := "waypoint" ++ index

/-- The template literal `waypoint${idx}` applied to a numeric index
(`addStop`, `removeWaypoint`). -/
def waypointKey (idx : Nat) : String := "waypoint" ++ Nat.repr idx

/-- Modelled from the spec: `TransactionUtils.waypointHasValidAddress` is not
among the excerpted files.  Per the spec a waypoint "may be empty (pending
user input)" and carries a structured address once filled in; a waypoint has a
valid address when its `address` is a present, non-empty string. -/
def waypointHasValidAddress (w : Waypoint) : Bool :=
  match w.address with
  | some a => !(a == "")
  | none => false

/-! ### The operations (lines refer to `src/libs/actions/Transaction.ts`) -/

/-- `createInitialWaypoints` (lines 32-41): merge two empty waypoints at
`waypoint0` and `waypoint1` into the committed record. -/
def createInitialWaypoints (transactionID : String) : OnyxOp :=
  ⟨.merge, .transactionKey transactionID,
   .txPatch
     ⟨some ⟨some [(waypointKey 0, some emptyWaypoint), (waypointKey 1, some emptyWaypoint)],
            .absent⟩,
      none, none⟩⟩

/-- The merge payload of `addStop` (lines 51-57): one empty waypoint at
`waypoint${newLastIndex}`. -/
def addStopPatch (newLastIndex : Nat) : TransactionPatch :=
  ⟨some ⟨some [(waypointKey newLastIndex, some emptyWaypoint)], .absent⟩, none, none⟩

/-- `addStop` (lines 46-58).  The process-wide `allTransactions` mirror is
passed explicitly; `allTransactions?.[transactionID] ?? {}` is a lookup
defaulting to the empty object. -/
def addStop (allTransactions : List (String × Transaction)) (transactionID : String) :
    OnyxOp :=
  let transaction := (allTransactions.lookup transactionID).getD emptyTransaction
  let existingWaypoints := (transaction.comment.bind Comment.waypoints).getD []
  let newLastIndex := existingWaypoints.length
  ⟨.merge, .transactionKey transactionID, .txPatch (addStopPatch newLastIndex)⟩

/-- The merge payload of `saveWaypoint` (lines 61-80): the waypoint (possibly
`null`) at `waypoint${index}`, `errorFields.route: null`, and
`routes.route0.geometry.coordinates: null`. -/
def saveWaypointPatch (index : String) (waypoint : Option Waypoint) : TransactionPatch :=
  ⟨some ⟨some [(waypointKeyStr index, waypoint)], .absent⟩,
   some ⟨.null⟩,
   some ⟨some ⟨.absent, some ⟨.null⟩⟩⟩⟩

/-- `saveWaypoint` (lines 60-100): the list of store writes issued, in order.
The process-wide `recentWaypoints` mirror is passed explicitly.  The first
merge targets the committed collection when `isDraft` is true and the draft
collection when it is false (line 61 as written).  Lines 85-99 then possibly
issue a second merge updating the recent-waypoints NVP. -/
def saveWaypoint (recentWaypoints : List Waypoint) (transactionID index : String)
    (waypoint : Option Waypoint) (isDraft : Bool) : List OnyxOp :=
  ⟨.merge,
   if isDraft then .transactionKey transactionID else .transactionDraftKey transactionID,
   .txPatch (saveWaypointPatch index waypoint)⟩ ::
  -- lines 85-87: `lodashHas(waypoint, 'lat')` / `'lng'` (false on a null waypoint)
  (if !(waypoint.bind Waypoint.lat).isSome || !(waypoint.bind Waypoint.lng).isSome then []
   -- lines 91-93: `isEqual(waypoint?.address, CONST.YOUR_LOCATION_TEXT)`
   else if (waypoint.bind Waypoint.address) == some YOUR_LOCATION_TEXT then []
   else
     -- line 94: find a recent waypoint with the same address
     let recentWaypointAlreadyExists :=
       recentWaypoints.any fun recentWaypoint =>
         recentWaypoint.address == waypoint.bind Waypoint.address
     -- lines 95-99: `if (!recentWaypointAlreadyExists && waypoint !== null)`
     if !recentWaypointAlreadyExists then
       match waypoint with
       | some w => [⟨.merge, .nvpRecentWaypoints, .waypointList ((w :: recentWaypoints).take 5)⟩]
       | none => []
     else [])

/-! ### JS numbers and `Array.prototype.splice` -/

/-- A JS number as produced by `Number(currentIndex)` on a route-param string:
`NaN` when the string does not parse, otherwise a number (the indices this
module handles are integral). -/
inductive JSNum where
  | nan : JSNum
  | int : Int → JSNum
  deriving DecidableEq

/-- `ToIntegerOrInfinity` as `splice` applies it to its start argument:
`NaN` becomes `0`. -/
def JSNum.toInt : JSNum → Int
  | .nan => 0
  | .int i => i

/-- JS strict equality of the index against an integer; `NaN === x` is false. -/
def JSNum.eq : JSNum → Int → Bool
  | .nan, _ => false
  | .int i, j => i == j

/-- The actual start position of `splice(start, …)` on a list of length `len`:
a negative start counts from the end, and the result is clamped to
`[0, len]`. -/
def spliceStart (start : Int) (len : Nat) : Nat :=
  if start < 0 then ((len : Int) + start).toNat else min start.toNat len

/-- Lines 121-124: `waypointValues.forEach((waypoint, idx) =>
reIndexedWaypoints[waypoint${idx}] = waypoint)`, building the object in
iteration order starting at `idx`. -/
def reIndexFrom (idx : Nat) : List (Option Waypoint) → WaypointMap
  | [] => []
  | w :: ws => (waypointKey idx, w) :: reIndexFrom (idx + 1) ws

def reIndex (l : List (Option Waypoint)) : WaypointMap := reIndexFrom 0 l

/-- `removeWaypoint` (lines 102-170).  `index` is `Number(currentIndex)`.
Returns the single `Onyx.set` write, or `none` on the early return (nothing
spliced).  Note the written key uses `transaction?.transactionID` directly
(the template literal renders a missing id as the string `undefined`), while
the record's own `transactionID` field defaults to the empty string. -/
def removeWaypoint (transaction : Option Transaction) (index : JSNum) (isDraft : Bool) :
    Option OnyxOp :=
  let existingWaypoints := ((transaction.bind Transaction.comment).bind Comment.waypoints).getD []
  let totalWaypoints := existingWaypoints.length
  let waypointValues := existingWaypoints.map Prod.snd
  -- line 109: `waypointValues.splice(index, 1)`
  let start := spliceStart index.toInt waypointValues.length
  let removed := (waypointValues.drop start).take 1
  let spliced := waypointValues.take start ++ waypointValues.drop (start + 1)
  if removed.length == 0 then none
  else
    -- line 114: `removed.length > 0 && !waypointHasValidAddress(removed[0] ?? {})`
    let isRemovedWaypointEmpty :=
      decide (0 < removed.length) &&
        !(waypointHasValidAddress ((removed.head?.getD none).getD emptyWaypoint))
    -- lines 117-119: reinsert an empty waypoint when only two waypoints existed
    let waypointValues2 :=
      if totalWaypoints == 2 && (index.eq 0 || index.eq ((totalWaypoints : Int) - 1)) then
        let s := spliceStart index.toInt spliced.length
        spliced.take s ++ some emptyWaypoint :: spliced.drop s
      else spliced
    let reIndexedWaypoints := reIndex waypointValues2
    -- lines 129-145: rebuild the transaction with defaulted scalar fields
    let newTransaction0 : Transaction :=
      { transactionID := some ((transaction.bind Transaction.transactionID).getD ""),
        amount := some ((transaction.bind Transaction.amount).getD 0),
        billable := some ((transaction.bind Transaction.billable).getD false),
        category := some ((transaction.bind Transaction.category).getD ""),
        created := some ((transaction.bind Transaction.created).getD ""),
        currency := some ((transaction.bind Transaction.currency).getD ""),
        merchant := some ((transaction.bind Transaction.merchant).getD ""),
        reportID := some ((transaction.bind Transaction.reportID).getD ""),
        tag := some ((transaction.bind Transaction.tag).getD ""),
        pendingAction := transaction.bind Transaction.pendingAction,
        comment := some ⟨some reIndexedWaypoints,
                         (transaction.bind Transaction.comment).bind Comment.isLoading⟩,
        errorFields := transaction.bind Transaction.errorFields,
        routes := transaction.bind Transaction.routes }
    -- lines 147-164: clear route error and route cache unless the removed
    -- waypoint was empty
    let newTransaction :=
      if !isRemovedWaypointEmpty then
        { newTransaction0 with
          errorFields := some ⟨none⟩,
          routes := some ⟨some ⟨none, some ⟨none⟩⟩⟩ }
      else newTransaction0
    let id := (transaction.bind Transaction.transactionID).getD "undefined"
    if isDraft then some ⟨.set, .transactionDraftKey id, .txFull newTransaction⟩
    else some ⟨.set, .transactionKey id, .txFull newTransaction⟩

/-! ### Route requests -/

/-- `getOnyxDataForRouteRequest` (lines 172-213). -/
def getOnyxDataForRouteRequest (transactionID : String) (isDraft : Bool) : OnyxData :=
  let key :=
    if isDraft then OnyxKey.transactionDraftKey transactionID
    else OnyxKey.transactionKey transactionID
  ⟨[⟨.merge, key, .txPatch ⟨some ⟨none, .val true⟩, some ⟨.null⟩, none⟩⟩],
   [⟨.merge, key, .txPatch ⟨some ⟨none, .val false⟩, none, none⟩⟩],
   [⟨.merge, key, .txPatch ⟨some ⟨none, .val false⟩, none, none⟩⟩]⟩

/-- An `API.read` call: the command name, its parameters (the waypoints are
JSON-serialized on the wire; the mapping itself is the parameter), and the
three-phase state-patch bundle. -/
structure APIReadRequest where
  command : String
  transactionID : String
  waypoints : WaypointMap
  onyxData : OnyxData
  deriving DecidableEq

/-- `getRoute` (lines 219-228). -/
def getRoute (transactionID : String) (waypoints : WaypointMap) : APIReadRequest :=
  ⟨"GetRoute", transactionID, waypoints, getOnyxDataForRouteRequest transactionID false⟩

/-- `getRouteForDraft` (lines 234-243). -/
def getRouteForDraft (transactionID : String) (waypoints : WaypointMap) : APIReadRequest :=
  ⟨"GetRouteForDraft", transactionID, waypoints, getOnyxDataForRouteRequest transactionID true⟩

/-- The merge payload of `updateWaypoints` (lines 253-272): the full waypoints
object, `errorFields.route: null`, and `routes.route0` with `distance: null`
and `geometry.coordinates: null`. -/
def updateWaypointsPatch (waypoints : WaypointMap) : TransactionPatch :=
  ⟨some ⟨some waypoints, .absent⟩,
   some ⟨.null⟩,
   some ⟨some ⟨.null, some ⟨.null⟩⟩⟩⟩

/-- `updateWaypoints` (lines 252-273): the single merge write; the source
returns the completion promise of exactly this write. -/
def updateWaypoints (transactionID : String) (waypoints : WaypointMap) (isDraft : Bool) :
    OnyxOp :=
  ⟨.merge,
   if isDraft then .transactionDraftKey transactionID else .transactionKey transactionID,
   .txPatch (updateWaypointsPatch waypoints)⟩

/-- The transaction written by an `Onyx.set` operation, if any. -/
def writtenTransaction : Option OnyxOp → Option Transaction
  | some ⟨_, _, OnyxValue.txFull t⟩ => some t
  | _ => none

/-- The waypoint map carried by a written transaction, if any. -/
def writtenWaypoints (o : Option OnyxOp) : Option WaypointMap :=
  (writtenTransaction o).bind fun t => t.comment.bind Comment.waypoints

/-! ### Decimal key names

`waypoint${idx}` uses the decimal rendering of the index; distinct indices
give distinct keys.  We relate `Nat.repr` to a fuel-free digit list and prove
it injective. -/

/-- The decimal digit characters of `n`, most significant first (fuel-free
counterpart of `Nat.toDigits 10`). -/
def decimalDigits (n : Nat) : List Char :=
  if n < 10 then [Nat.digitChar n]
  else decimalDigits (n / 10) ++ [Nat.digitChar (n % 10)]
  decreasing_by exact Nat.div_lt_self (by omega) (by omega)

theorem decimalDigits_ne_nil (n : Nat) : decimalDigits n ≠ [] := by
  unfold decimalDigits
  split
  · simp
  · simp

theorem toDigitsCore_eq_decimalDigits :
    ∀ (f n : Nat) (ds : List Char), n < f →
      Nat.toDigitsCore 10 f n ds = decimalDigits n ++ ds := by
  intro f
  induction f with
  | zero => intro n ds h; omega
  | succ f ih =>
    intro n ds h
    by_cases h10 : n / 10 = 0
    · have hlt : n < 10 := by
        rcases Nat.lt_or_ge n 10 with h1 | h1
        · exact h1
        · exact absurd h10 (by
            have := Nat.div_le_div_right (c := 10) h1
            simp at this
            omega)
      simp only [Nat.toDigitsCore, h10, if_pos]
      unfold decimalDigits
      rw [if_pos hlt, Nat.mod_eq_of_lt hlt]
      rfl
    · have hge : 10 ≤ n := by
        rcases Nat.lt_or_ge n 10 with h1 | h1
        · exact absurd (Nat.div_eq_of_lt h1) h10
        · exact h1
      have hlt : n / 10 < f := by
        have : n / 10 < n := Nat.div_lt_self (by omega) (by omega)
        omega
      simp only [Nat.toDigitsCore, h10, if_neg]
      rw [ih (n / 10) (Nat.digitChar (n % 10) :: ds) hlt]
      conv_rhs => rw [decimalDigits, if_neg (by omega)]
      simp

theorem repr_data_eq (n : Nat) : (Nat.repr n).data = decimalDigits n := by
  show (Nat.toDigits 10 n).asString.data = decimalDigits n
  unfold Nat.toDigits
  rw [toDigitsCore_eq_decimalDigits (n + 1) n [] (Nat.lt_succ_self n)]
  simp [List.asString]

theorem digitChar_inj_below_ten :
    ∀ a : Nat, a < 10 → ∀ b : Nat, b < 10 → Nat.digitChar a = Nat.digitChar b → a = b := by
  decide

theorem decimalDigits_lt {n : Nat} (h : n < 10) :
    decimalDigits n = [Nat.digitChar n] := by
  unfold decimalDigits
  rw [if_pos h]

theorem decimalDigits_ge {n : Nat} (h : ¬n < 10) :
    decimalDigits n = decimalDigits (n / 10) ++ [Nat.digitChar (n % 10)] := by
  conv_lhs => rw [decimalDigits]
  rw [if_neg h]

theorem decimalDigits_inj : ∀ a b : Nat, decimalDigits a = decimalDigits b → a = b := by
  intro a
  induction a using Nat.strong_induction_on with
  | _ a ih =>
    intro b h
    by_cases ha : a < 10 <;> by_cases hb : b < 10
    · rw [decimalDigits_lt ha, decimalDigits_lt hb] at h
      exact digitChar_inj_below_ten a ha b hb (List.cons.inj h).1
    · exfalso
      rw [decimalDigits_lt ha, decimalDigits_ge hb] at h
      have hlen := congrArg List.length h
      have hpos : 0 < (decimalDigits (b / 10)).length :=
        List.length_pos.2 (decimalDigits_ne_nil (b / 10))
      simp only [List.length_cons, List.length_nil, List.length_append] at hlen
      omega
    · exfalso
      rw [decimalDigits_ge ha, decimalDigits_lt hb] at h
      have hlen := congrArg List.length h
      have hpos : 0 < (decimalDigits (a / 10)).length :=
        List.length_pos.2 (decimalDigits_ne_nil (a / 10))
      simp only [List.length_cons, List.length_nil, List.length_append] at hlen
      omega
    · rw [decimalDigits_ge ha, decimalDigits_ge hb] at h
      have hparts := List.append_inj' h (by simp)
      have hdiv : a / 10 = b / 10 :=
        ih (a / 10) (Nat.div_lt_self (by omega) (by omega)) (b / 10) hparts.1
      have hmodc : Nat.digitChar (a % 10) = Nat.digitChar (b % 10) :=
        (List.cons.inj hparts.2).1
      have hmod : a % 10 = b % 10 :=
        digitChar_inj_below_ten (a % 10) (Nat.mod_lt a (by omega)) (b % 10)
          (Nat.mod_lt b (by omega)) hmodc
      have h1 := Nat.div_add_mod a 10
      have h2 := Nat.div_add_mod b 10
      omega

theorem waypointKey_inj {m n : Nat} (h : waypointKey m = waypointKey n) : m = n := by
  have hd : ("waypoint" ++ Nat.repr m).data = ("waypoint" ++ Nat.repr n).data :=
    congrArg String.data h
  rw [String.data_append, String.data_append] at hd
  have := List.append_cancel_left hd
  rw [repr_data_eq, repr_data_eq] at this
  exact decimalDigits_inj m n this

theorem waypointKey_not_mem_range (n : Nat) :
    waypointKey n ∉ (List.range n).map waypointKey := by
  intro h
  rcases List.mem_map.1 h with ⟨i, hi, hk⟩
  have := waypointKey_inj hk
  rw [this] at hi
  exact absurd (List.mem_range.1 hi) (lt_irrefl n)

/-! ### Lookup lemmas for the waypoint-map merge -/

theorem lookup_eq_none_of_keys {l : WaypointMap} {k : String}
    (h : k ∉ l.map Prod.fst) : l.lookup k = none := by
  induction l with
  | nil => rfl
  | cons e tl ih =>
    simp only [List.map_cons, List.mem_cons] at h
    push_neg at h
    rw [List.lookup_cons]
    have : (k == e.1) = false := beq_false_of_ne h.1
    rw [this]
    exact ih h.2

/-- Merging a payload whose single key is absent from the stored map appends
that entry and leaves every stored entry untouched. -/
theorem mergeWaypointMap_fresh {old : WaypointMap} {k : String} {v : Option Waypoint}
    (h : old.lookup k = none) : mergeWaypointMap old [(k, v)] = old ++ [(k, v)] := by
  unfold mergeWaypointMap
  have hmap : ∀ (l : WaypointMap), l.lookup k = none →
      (l.map fun e =>
        match List.lookup e.1 [(k, v)] with
        | some nv => (e.1, mergeWaypointValue e.2 nv)
        | none => e) = l := by
    intro l hl
    induction l with
    | nil => rfl
    | cons e tl ih =>
      rw [List.lookup_cons] at hl
      by_cases hek : (k == e.1) = true
      · rw [hek] at hl; simp at hl
      · have hek' : (k == e.1) = false := Bool.eq_false_iff.2 hek
        rw [hek'] at hl
        have hke : (e.1 == k) = false :=
          beq_eq_false_iff_ne.2 (Ne.symm (beq_eq_false_iff_ne.1 hek'))
        rw [List.map_cons, ih hl]
        have hhead : (match List.lookup e.1 [(k, v)] with
            | some nv => (e.1, mergeWaypointValue e.2 nv)
            | none => e) = e := by
          rw [List.lookup_cons, hke]
          exact rfl
        rw [hhead]
  rw [hmap old h]
  simp [List.lookup_cons, h]

theorem lookup_mergeOldPart (old new : WaypointMap) (k : String) :
    ((old.map fun e =>
        match new.lookup e.1 with
        | some nv => (e.1, mergeWaypointValue e.2 nv)
        | none => e).lookup k) =
      match old.lookup k, new.lookup k with
      | some ov, some nv => some (mergeWaypointValue ov nv)
      | some ov, none => some ov
      | none, _ => none := by
  induction old with
  | nil => simp
  | cons e tl ih =>
    obtain ⟨a, b⟩ := e
    by_cases hk : (k == a) = true
    · have hka : k = a := beq_iff_eq.1 hk
      subst hka
      rcases hna : new.lookup k with _ | nv <;>
        simp [hna, List.lookup_cons]
    · have hk' : (k == a) = false := Bool.eq_false_iff.2 hk
      rcases hna : new.lookup a with _ | nv <;>
        simp only [List.map_cons, hna, List.lookup_cons, hk'] <;>
        exact ih

theorem lookup_filterNewPart (old new : WaypointMap) (k : String) :
    ((new.filter fun e => (old.lookup e.1).isNone).lookup k) =
      if (old.lookup k).isNone then new.lookup k else none := by
  induction new with
  | nil => simp
  | cons e tl ih =>
    obtain ⟨a, b⟩ := e
    by_cases hk : (k == a) = true
    · have hka : k = a := beq_iff_eq.1 hk
      subst hka
      by_cases hoa : (old.lookup k).isNone = true
      · rw [List.filter_cons_of_pos (by simpa using hoa)]
        simp [List.lookup_cons, hoa]
      · rw [List.filter_cons_of_neg (by simpa using hoa)]
        rw [ih]
        simp [Bool.eq_false_iff.2 hoa]
    · have hk' : (k == a) = false := Bool.eq_false_iff.2 hk
      by_cases hoa : ((old.lookup a).isNone : Bool) = true
      · rw [List.filter_cons_of_pos (by simpa using hoa)]
        simp only [List.lookup_cons, hk']
        exact ih
      · rw [List.filter_cons_of_neg (by simpa using hoa)]
        rw [ih]
        simp [List.lookup_cons, hk']

/-- Full lookup characterization of the waypoint-map merge: payload keys win
(values merged over stored objects), stored keys absent from the payload keep
their stored value. -/
theorem lookup_mergeWaypointMap (old new : WaypointMap) (k : String) :
    (mergeWaypointMap old new).lookup k =
      match old.lookup k, new.lookup k with
      | some ov, some nv => some (mergeWaypointValue ov nv)
      | some ov, none => some ov
      | none, r => r := by
  unfold mergeWaypointMap
  rw [List.lookup_append, lookup_mergeOldPart, lookup_filterNewPart]
  rcases old.lookup k with _ | ov <;> rcases new.lookup k with _ | nv <;> simp

theorem reIndexFrom_map_snd (i : Nat) (l : List (Option Waypoint)) :
    (reIndexFrom i l).map Prod.snd = l := by
  induction l generalizing i with
  | nil => rfl
  | cons w ws ih => simp [reIndexFrom, ih]

theorem reIndexFrom_map_fst (i : Nat) (l : List (Option Waypoint)) :
    (reIndexFrom i l).map Prod.fst = (List.range' i l.length).map waypointKey := by
  induction l generalizing i with
  | nil => rfl
  | cons w ws ih =>
    rw [List.length_cons, List.range'_succ]
    simp [reIndexFrom, ih]

theorem reIndex_map_snd (l : List (Option Waypoint)) : (reIndex l).map Prod.snd = l :=
  reIndexFrom_map_snd 0 l

theorem reIndex_map_fst (l : List (Option Waypoint)) :
    (reIndex l).map Prod.fst = (List.range l.length).map waypointKey := by
  rw [reIndex, reIndexFrom_map_fst, List.range_eq_range']

theorem reIndex_length (l : List (Option Waypoint)) : (reIndex l).length = l.length := by
  have := congrArg List.length (reIndex_map_snd l)
  simpa using this

/-! ### The claims -/

/-- C1: for every call `saveWaypoint(transactionID, index, waypoint, isDraft)`,
the store-key selection is inverted from what the `isDraft` flag name implies:
the merge — writing the waypoint at key `waypoint${index}`, setting
`errorFields.route` to null and `routes.route0.geometry.coordinates` to null —
targets the committed (non-draft) transaction key when `isDraft` is true, and
the draft transaction key when `isDraft` is false. -/
theorem saveWaypoint_key_inverted (recent : List Waypoint) (transactionID index : String)
    (waypoint : Option Waypoint) :
    (saveWaypoint recent transactionID index waypoint true).head? =
      some ⟨.merge, .transactionKey transactionID,
        .txPatch ⟨some ⟨some [(waypointKeyStr index, waypoint)], .absent⟩,
                  some ⟨.null⟩, some ⟨some ⟨.absent, some ⟨.null⟩⟩⟩⟩⟩
    ∧ (saveWaypoint recent transactionID index waypoint false).head? =
      some ⟨.merge, .transactionDraftKey transactionID,
        .txPatch ⟨some ⟨some [(waypointKeyStr index, waypoint)], .absent⟩,
                  some ⟨.null⟩, some ⟨some ⟨.absent, some ⟨.null⟩⟩⟩⟩⟩ :=
  ⟨rfl, rfl⟩

/-- C8: for both `getRoute` and `getRouteForDraft`, the request's optimistic
patch merges `comment.isLoading = true` and `errorFields.route = null` onto
the transaction record (the draft key for `getRouteForDraft`, the committed
key for `getRoute`), and the success patch and the failure patch are
identical, each merging only `comment.isLoading = false`; neither terminal
patch carries route geometry or an error message. -/
theorem routeRequest_three_phases (transactionID : String) (waypoints : WaypointMap) :
    (getRoute transactionID waypoints).onyxData =
        getOnyxDataForRouteRequest transactionID false
    ∧ (getRouteForDraft transactionID waypoints).onyxData =
        getOnyxDataForRouteRequest transactionID true
    ∧ ∀ isDraft : Bool,
        (getOnyxDataForRouteRequest transactionID isDraft).optimisticData =
          [⟨.merge,
            if isDraft then .transactionDraftKey transactionID
            else .transactionKey transactionID,
            .txPatch ⟨some ⟨none, .val true⟩, some ⟨.null⟩, none⟩⟩]
        ∧ (getOnyxDataForRouteRequest transactionID isDraft).successData =
            (getOnyxDataForRouteRequest transactionID isDraft).failureData
        ∧ (getOnyxDataForRouteRequest transactionID isDraft).successData =
          [⟨.merge,
            if isDraft then .transactionDraftKey transactionID
            else .transactionKey transactionID,
            .txPatch ⟨some ⟨none, .val false⟩, none, none⟩⟩] :=
  ⟨rfl, rfl, fun _ => ⟨rfl, rfl, rfl⟩⟩

/-- The elements `waypointValues.splice(index, 1)` removes from the
transaction's waypoint-value list (the source's `removed`, line 109). -/
def splicedRemoved (transaction : Option Transaction) (index : JSNum) :
    List (Option Waypoint) :=
  let waypointValues :=
    (((transaction.bind Transaction.comment).bind Comment.waypoints).getD []).map Prod.snd
  (waypointValues.drop (spliceStart index.toInt waypointValues.length)).take 1

/-- C9: for every transaction and every removal index at which no waypoint
exists (the splice of the waypoint-value list removes nothing),
`removeWaypoint` returns early without performing any store write. -/
theorem removeWaypoint_noop_when_nothing_removed (transaction : Option Transaction)
    (index : JSNum) (isDraft : Bool) (h : splicedRemoved transaction index = []) :
    removeWaypoint transaction index isDraft = none := by
  simp only [splicedRemoved] at h
  simp only [removeWaypoint]
  rw [h]
  simp

/-- Witness for C9: a transaction with one waypoint and removal index 5. -/
theorem removeWaypoint_noop_when_nothing_removed_witness :
    removeWaypoint
      (some { emptyTransaction with
              comment := some ⟨some [(waypointKey 0, some emptyWaypoint)], none⟩ })
      (JSNum.int 5) false = none :=
  removeWaypoint_noop_when_nothing_removed _ _ _ (by decide)

/-- C10: when `removeWaypoint` is called with a `currentIndex` string that does
not parse to a number (`Number(currentIndex)` is NaN), the splice treats the
index as 0: on a transaction with at least one waypoint, the waypoint at
index 0 is removed and the write proceeds, rather than the call being a
no-op. -/
theorem removeWaypoint_nan_removes_first (tx : Transaction) (c : Comment)
    (wps : WaypointMap) (isDraft : Bool)
    (hc : tx.comment = some c) (hw : c.waypoints = some wps) (hne : 1 ≤ wps.length) :
    ∃ m : WaypointMap,
      writtenWaypoints (removeWaypoint (some tx) JSNum.nan isDraft) = some m
      ∧ m.map Prod.snd = (wps.map Prod.snd).drop 1 := by
  rcases wps with _ | ⟨e, tl⟩
  · simp at hne
  · refine ⟨reIndex (tl.map Prod.snd), ?_, by rw [reIndex_map_snd]; simp⟩
    cases isDraft <;>
      simp [writtenWaypoints, writtenTransaction, removeWaypoint, hc, hw,
        spliceStart, JSNum.toInt, JSNum.eq] <;>
      split <;> rfl

/-- Witness for C10: a two-waypoint transaction, NaN index. -/
theorem removeWaypoint_nan_removes_first_witness :
    ∃ m : WaypointMap,
      writtenWaypoints
        (removeWaypoint
          (some { emptyTransaction with
                  comment := some ⟨some [(waypointKey 0, some ⟨some "a", none, none⟩),
                                         (waypointKey 1, some ⟨some "b", none, none⟩)], none⟩ })
          JSNum.nan false) = some m
      ∧ m.map Prod.snd =
          (([(waypointKey 0, some (⟨some "a", none, none⟩ : Waypoint)),
             (waypointKey 1, some ⟨some "b", none, none⟩)] : WaypointMap).map Prod.snd).drop 1 :=
  removeWaypoint_nan_removes_first _ _ _ false rfl rfl (by decide)

/-- C3: on a transaction whose `comment.waypoints` has exactly two entries,
removing index 0 or index 1 writes a waypoint mapping that still has exactly
two entries: an empty waypoint reinserted at the removed position and the
other original waypoint preserved at the opposite index. -/
theorem removeWaypoint_two_entry_endpoints (tx : Transaction) (c : Comment)
    (k0 k1 : String) (v0 v1 : Option Waypoint) (isDraft : Bool)
    (hc : tx.comment = some c) (hw : c.waypoints = some [(k0, v0), (k1, v1)]) :
    writtenWaypoints (removeWaypoint (some tx) (JSNum.int 0) isDraft) =
      some [(waypointKey 0, some emptyWaypoint), (waypointKey 1, v1)]
    ∧ writtenWaypoints (removeWaypoint (some tx) (JSNum.int 1) isDraft) =
      some [(waypointKey 0, v0), (waypointKey 1, some emptyWaypoint)] := by
  constructor <;>
    cases isDraft <;>
      simp [writtenWaypoints, writtenTransaction, removeWaypoint, hc, hw,
        spliceStart, JSNum.toInt, JSNum.eq, reIndex, reIndexFrom] <;>
      split <;> rfl

/-- Witness for C3: a concrete two-waypoint transaction. -/
theorem removeWaypoint_two_entry_endpoints_witness :
    writtenWaypoints
      (removeWaypoint
        (some { emptyTransaction with
                comment := some ⟨some [(waypointKey 0, some ⟨some "a", none, none⟩),
                                       (waypointKey 1, some ⟨some "b", none, none⟩)], none⟩ })
        (JSNum.int 0) false) =
      some [(waypointKey 0, some emptyWaypoint),
            (waypointKey 1, some ⟨some "b", none, none⟩)] :=
  (removeWaypoint_two_entry_endpoints _ _ _ _ _ _ false rfl rfl).1

theorem comment_waypoints_getD (t : Transaction) :
    ((t.comment.getD emptyComment).waypoints).getD [] =
      (t.comment.bind Comment.waypoints).getD [] := by
  cases t.comment <;> rfl

/-- C6: for every transaction in the mirror whose existing waypoint keys are
exactly `waypoint0` … `waypoint(N-1)` (with `N` the count of existing
waypoint keys; a transaction absent from the mirror has `N = 0`), `addStop`
merges exactly one new empty waypoint at key `waypointN`, and applying the
merge to the record leaves all prior entries unchanged and appends the new
one. -/
theorem addStop_appends_empty_waypoint (allTransactions : List (String × Transaction))
    (transactionID : String) (t : Transaction) (wps : WaypointMap)
    (ht : (allTransactions.lookup transactionID).getD emptyTransaction = t)
    (hw : (t.comment.bind Comment.waypoints).getD [] = wps)
    (hkeys : wps.map Prod.fst = (List.range wps.length).map waypointKey) :
    addStop allTransactions transactionID =
      ⟨.merge, .transactionKey transactionID,
       .txPatch ⟨some ⟨some [(waypointKey wps.length, some emptyWaypoint)], .absent⟩,
                 none, none⟩⟩
    ∧ ((t.applyPatch (addStopPatch wps.length)).comment.bind Comment.waypoints) =
        some (wps ++ [(waypointKey wps.length, some emptyWaypoint)]) := by
  have hfresh : wps.lookup (waypointKey wps.length) = none := by
    apply lookup_eq_none_of_keys
    rw [hkeys]
    exact waypointKey_not_mem_range wps.length
  constructor
  · simp only [addStop, ht, hw, addStopPatch]
  · simp only [Transaction.applyPatch, addStopPatch, Comment.applyPatch,
      Option.bind_some, comment_waypoints_getD, hw]
    rw [mergeWaypointMap_fresh hfresh]
    rfl

/-- Witness for C6: a mirror with one transaction holding one waypoint. -/
theorem addStop_appends_empty_waypoint_witness :
    (({ emptyTransaction with
        comment := some ⟨some [(waypointKey 0, some ⟨some "a", none, none⟩)], none⟩ }
      : Transaction).applyPatch (addStopPatch 1)).comment.bind Comment.waypoints =
      some ([(waypointKey 0, some ⟨some "a", none, none⟩)] ++
            [(waypointKey 1, some emptyWaypoint)]) :=
  (addStop_appends_empty_waypoint
    [("t1", { emptyTransaction with
              comment := some ⟨some [(waypointKey 0, some ⟨some "a", none, none⟩)], none⟩ })]
    "t1" _ _ (by decide) rfl (by decide)).2

/-- C2 counterexample: `updateWaypoints` does not wholesale-replace the
waypoints mapping.  With stored entries `waypoint0 ↦ a`, `waypoint1 ↦ b` and
a new mapping containing only `waypoint0 ↦ c`, the entry `waypoint1 ↦ b`
survives the merge even though it is not in the new mapping. -/
theorem updateWaypoints_not_wholesale :
    updateWaypoints "t1" [(waypointKey 0, some ⟨some "c", none, none⟩)] false =
      ⟨.merge, .transactionKey "t1",
       .txPatch (updateWaypointsPatch [(waypointKey 0, some ⟨some "c", none, none⟩)])⟩
    ∧ (((({ emptyTransaction with
            comment := some ⟨some [(waypointKey 0, some ⟨some "a", none, none⟩),
                                   (waypointKey 1, some ⟨some "b", none, none⟩)], none⟩ }
          : Transaction).applyPatch
            (updateWaypointsPatch [(waypointKey 0, some ⟨some "c", none, none⟩)])).comment.bind
          Comment.waypoints).getD []).lookup (waypointKey 1) =
        some (some ⟨some "b", none, none⟩)
    ∧ ([(waypointKey 0, some (⟨some "c", none, none⟩ : Waypoint))] : WaypointMap).lookup
        (waypointKey 1) = none := by
  refine ⟨rfl, ?_, by decide⟩
  decide

/-- C2 (amended): `updateWaypoints` issues a single merge write — whose
completion promise the source returns — targeting the draft or committed
record per `isDraft`; the merge deep-merges the given mapping into
`comment.waypoints` key by key, so entries of the stored mapping whose keys
are absent from the given mapping survive, and it clears `errorFields.route`,
`routes.route0.distance` and `routes.route0.geometry.coordinates` regardless
of prior content. -/
theorem updateWaypoints_merge_characterization (transactionID : String)
    (waypoints : WaypointMap) (isDraft : Bool) (prior : Transaction) :
    updateWaypoints transactionID waypoints isDraft =
      ⟨.merge,
       if isDraft then .transactionDraftKey transactionID
       else .transactionKey transactionID,
       .txPatch (updateWaypointsPatch waypoints)⟩
    ∧ ((prior.applyPatch (updateWaypointsPatch waypoints)).comment.bind Comment.waypoints) =
        some (mergeWaypointMap ((prior.comment.bind Comment.waypoints).getD []) waypoints)
    ∧ (∀ k : String, waypoints.lookup k = none →
        (mergeWaypointMap ((prior.comment.bind Comment.waypoints).getD []) waypoints).lookup k =
          ((prior.comment.bind Comment.waypoints).getD []).lookup k)
    ∧ ((prior.applyPatch (updateWaypointsPatch waypoints)).errorFields.bind
        ErrorFields.route) = none
    ∧ (((prior.applyPatch (updateWaypointsPatch waypoints)).routes.bind
        Routes.route0).bind Route.distance) = none
    ∧ ((((prior.applyPatch (updateWaypointsPatch waypoints)).routes.bind
        Routes.route0).bind Route.geometry).bind Geometry.coordinates) = none := by
  refine ⟨rfl, ?_, ?_, rfl, rfl, rfl⟩
  · simp only [Transaction.applyPatch, updateWaypointsPatch, Comment.applyPatch,
      Option.bind_some, comment_waypoints_getD]
    rfl
  · intro k hk
    rw [lookup_mergeWaypointMap, hk]
    rcases ((prior.comment.bind Comment.waypoints).getD []).lookup k with _ | ov <;> rfl

/-- Witness for C2 (amended): survival of a stored entry absent from the new
mapping, at a concrete prior record. -/
theorem updateWaypoints_merge_characterization_witness :
    (mergeWaypointMap
      ((((some (⟨some [(waypointKey 0, some ⟨some "a", none, none⟩),
                       (waypointKey 1, some ⟨some "b", none, none⟩)], none⟩ : Comment)).bind
          Comment.waypoints).getD []))
      [(waypointKey 0, some ⟨some "c", none, none⟩)]).lookup (waypointKey 1) =
      (((some (⟨some [(waypointKey 0, some ⟨some "a", none, none⟩),
                      (waypointKey 1, some ⟨some "b", none, none⟩)], none⟩ : Comment)).bind
          Comment.waypoints).getD []).lookup (waypointKey 1) :=
  (updateWaypoints_merge_characterization "t1"
    [(waypointKey 0, some ⟨some "c", none, none⟩)] false
    { emptyTransaction with
      comment := some ⟨some [(waypointKey 0, some ⟨some "a", none, none⟩),
                             (waypointKey 1, some ⟨some "b", none, none⟩)], none⟩ }).2.2.1
    (waypointKey 1) (by decide)

/-- C5: for every `saveWaypoint` call whose waypoint has both `lat` and `lng`,
whose address is not the current-location sentinel, and whose address is not
already present in the recent-waypoints mirror, a second merge persists the
waypoint prepended to the prior list truncated to at most 5 entries (a merge
replaces arrays wholesale, so the payload is the persisted list); otherwise —
duplicate address, missing `lat` or `lng`, or the sentinel address — no
recent-waypoints write is issued and the list is untouched. -/
theorem saveWaypoint_recent_list (recent : List Waypoint) (transactionID index : String)
    (waypoint : Option Waypoint) (isDraft : Bool) :
    (((waypoint.bind Waypoint.lat).isSome && (waypoint.bind Waypoint.lng).isSome
        && !((waypoint.bind Waypoint.address) == some YOUR_LOCATION_TEXT)
        && !(recent.any fun r => r.address == waypoint.bind Waypoint.address)) = true →
      saveWaypoint recent transactionID index waypoint isDraft =
        [⟨.merge,
          if isDraft then .transactionKey transactionID
          else .transactionDraftKey transactionID,
          .txPatch (saveWaypointPatch index waypoint)⟩,
         ⟨.merge, .nvpRecentWaypoints,
          .waypointList (((waypoint.getD emptyWaypoint) :: recent).take 5)⟩])
    ∧ (((waypoint.bind Waypoint.lat).isSome && (waypoint.bind Waypoint.lng).isSome
        && !((waypoint.bind Waypoint.address) == some YOUR_LOCATION_TEXT)
        && !(recent.any fun r => r.address == waypoint.bind Waypoint.address)) = false →
      saveWaypoint recent transactionID index waypoint isDraft =
        [⟨.merge,
          if isDraft then .transactionKey transactionID
          else .transactionDraftKey transactionID,
          .txPatch (saveWaypointPatch index waypoint)⟩]) := by
  constructor
  · intro h
    simp only [Bool.and_eq_true] at h
    obtain ⟨⟨⟨h1, h2⟩, h3⟩, h4⟩ := h
    rcases waypoint with _ | w
    · simp at h1
    · simp at h1 h2 h3 h4
      simp [saveWaypoint, h1, h2, h3]
      exact h4
  · intro h
    rcases waypoint with _ | w
    · simp [saveWaypoint]
    · simp at h
      by_cases h1 : w.lat = none
      · simp [saveWaypoint, h1]
      · by_cases h2 : w.lng = none
        · simp [saveWaypoint, h1, h2]
        · by_cases h3 : w.address = some YOUR_LOCATION_TEXT
          · simp [saveWaypoint, h1, h2, h3]
          · have h1' : w.lat.isSome = true := by
              rcases hval : w.lat with _ | v
              · exact absurd hval h1
              · rfl
            have h2' : w.lng.isSome = true := by
              rcases hval : w.lng with _ | v
              · exact absurd hval h2
              · rfl
            have h4 := h h1' h2' h3
            simp [saveWaypoint, h1, h2, h3]
            exact h4

/-- Witness for C5: a fresh fully geocoded waypoint prepended to a full
five-entry recent list, truncating the oldest entry away. -/
theorem saveWaypoint_recent_list_witness :
    saveWaypoint
      [⟨some "r1", some 1, some 1⟩, ⟨some "r2", some 2, some 2⟩,
       ⟨some "r3", some 3, some 3⟩, ⟨some "r4", some 4, some 4⟩,
       ⟨some "r5", some 5, some 5⟩]
      "t1" "0" (some ⟨some "fresh", some 9, some 9⟩) false =
      [⟨.merge, .transactionDraftKey "t1",
        .txPatch (saveWaypointPatch "0" (some ⟨some "fresh", some 9, some 9⟩))⟩,
       ⟨.merge, .nvpRecentWaypoints,
        .waypointList [⟨some "fresh", some 9, some 9⟩, ⟨some "r1", some 1, some 1⟩,
                       ⟨some "r2", some 2, some 2⟩, ⟨some "r3", some 3, some 3⟩,
                       ⟨some "r4", some 4, some 4⟩]⟩] :=
  (saveWaypoint_recent_list
    [⟨some "r1", some 1, some 1⟩, ⟨some "r2", some 2, some 2⟩,
     ⟨some "r3", some 3, some 3⟩, ⟨some "r4", some 4, some 4⟩,
     ⟨some "r5", some 5, some 5⟩]
    "t1" "0" (some ⟨some "fresh", some 9, some 9⟩) false).1 (by decide)

/-- C4: for every transaction and every in-range removal index, the waypoint
mapping `removeWaypoint` writes has exactly the keys `waypoint0` …
`waypoint(k-1)` for its `k` entries — a zero-based contiguous sequence with no
gaps — and its values are the original values with the removed position
spliced out, preserving relative order (with the empty waypoint additionally
inserted at the removed position exactly in the two-waypoint end-point case);
in particular, removing the middle index of a 3-waypoint transaction yields 2
contiguous waypoints in the original order with no reinsertion. -/
theorem removeWaypoint_contiguous_reindex (tx : Transaction) (c : Comment)
    (wps : WaypointMap) (i : Nat) (isDraft : Bool)
    (hc : tx.comment = some c) (hw : c.waypoints = some wps) (hi : i < wps.length) :
    ∃ m : WaypointMap,
      writtenWaypoints (removeWaypoint (some tx) (JSNum.int i) isDraft) = some m
      ∧ m.map Prod.fst = (List.range m.length).map waypointKey
      ∧ m.map Prod.snd =
          (if wps.length = 2 ∧ (i = 0 ∨ i = 1) then
            ((wps.map Prod.snd).eraseIdx i).take i ++
              some emptyWaypoint :: ((wps.map Prod.snd).eraseIdx i).drop i
          else (wps.map Prod.snd).eraseIdx i)
      ∧ (wps.length = 3 ∧ i = 1 →
          m.map Prod.snd = (wps.map Prod.snd).eraseIdx 1 ∧ m.length = 2) := by
  by_cases hP : wps.length = 2 ∧ (i = 0 ∨ i = 1)
  · obtain ⟨hl2, hi01⟩ := hP
    rcases wps with _ | ⟨e0, _ | ⟨e1, _ | ⟨e2, tl⟩⟩⟩ <;> simp at hl2
    rcases hi01 with rfl | rfl
    · refine ⟨[(waypointKey 0, some emptyWaypoint), (waypointKey 1, e1.2)], ?_, rfl, ?_, ?_⟩
      · cases isDraft <;>
          simp [writtenWaypoints, writtenTransaction, removeWaypoint, hc, hw,
            spliceStart, JSNum.toInt, JSNum.eq, reIndex, reIndexFrom] <;>
          split <;> rfl
      · simp
      · simp
    · refine ⟨[(waypointKey 0, e0.2), (waypointKey 1, some emptyWaypoint)], ?_, rfl, ?_, ?_⟩
      · cases isDraft <;>
          simp [writtenWaypoints, writtenTransaction, removeWaypoint, hc, hw,
            spliceStart, JSNum.toInt, JSNum.eq, reIndex, reIndexFrom] <;>
          split <;> rfl
      · simp
      · simp
  · have hcond : ((wps.length == 2) &&
        (JSNum.eq (JSNum.int (i : Int)) 0 ||
         JSNum.eq (JSNum.int (i : Int)) ((wps.length : Int) - 1))) = false := by
      by_cases hl2 : wps.length = 2
      · have h0 : i ≠ 0 := fun h => hP ⟨hl2, Or.inl h⟩
        have h1 : i ≠ 1 := fun h => hP ⟨hl2, Or.inr h⟩
        simp [JSNum.eq, hl2]
        omega
      · have hne : (wps.length == 2) = false := beq_eq_false_iff_ne.2 hl2
        simp [hne]
    have hstart : spliceStart (i : Int) wps.length = i := by
      unfold spliceStart
      rw [if_neg (by omega)]
      simp only [Int.toNat_ofNat]
      exact Nat.min_eq_left (Nat.le_of_lt hi)
    have hilen : i < (wps.map Prod.snd).length := by simpa using hi
    have hdrop : (wps.map Prod.snd).drop i =
        (wps.map Prod.snd)[i] :: (wps.map Prod.snd).drop (i + 1) :=
      List.drop_eq_getElem_cons hilen
    refine ⟨reIndex ((wps.map Prod.snd).take i ++ (wps.map Prod.snd).drop (i + 1)),
      ?_, ?_, ?_, ?_⟩
    · cases isDraft <;>
        simp only [writtenWaypoints, writtenTransaction, removeWaypoint, hc, hw,
          Option.some_bind, Option.getD_some, JSNum.toInt, List.length_map] <;>
        rw [hstart, hdrop] <;>
        simp only [hcond, List.take_succ_cons, List.take_zero, List.length_cons,
          List.length_nil, Bool.false_eq_true, if_false] <;>
        simp <;>
        split <;> rfl
    · rw [reIndex_map_fst, reIndex_length]
    · rw [if_neg hP, reIndex_map_snd, List.eraseIdx_eq_take_drop_succ]
    · rintro ⟨hl3, rfl⟩
      constructor
      · rw [reIndex_map_snd, List.eraseIdx_eq_take_drop_succ]
      · rw [reIndex_length]
        simp only [List.length_append, List.length_take, List.length_drop, List.length_map]
        omega

/-- Witness for C4: removing the middle waypoint of a concrete 3-waypoint
transaction. -/
theorem removeWaypoint_contiguous_reindex_witness :
    ∃ m : WaypointMap,
      writtenWaypoints
        (removeWaypoint
          (some { emptyTransaction with
                  comment := some ⟨some [(waypointKey 0, some ⟨some "a", none, none⟩),
                                         (waypointKey 1, some ⟨some "b", none, none⟩),
                                         (waypointKey 2, some ⟨some "c", none, none⟩)], none⟩ })
          (JSNum.int 1) false) = some m
      ∧ m.map Prod.fst = (List.range m.length).map waypointKey
      ∧ m.map Prod.snd =
          (if ([(waypointKey 0, some (⟨some "a", none, none⟩ : Waypoint)),
                (waypointKey 1, some ⟨some "b", none, none⟩),
                (waypointKey 2, some ⟨some "c", none, none⟩)] : WaypointMap).length = 2
              ∧ ((1 : Nat) = 0 ∨ (1 : Nat) = 1) then
            ((([(waypointKey 0, some (⟨some "a", none, none⟩ : Waypoint)),
                (waypointKey 1, some ⟨some "b", none, none⟩),
                (waypointKey 2, some ⟨some "c", none, none⟩)] : WaypointMap).map
                  Prod.snd).eraseIdx 1).take 1 ++
              some emptyWaypoint ::
                ((([(waypointKey 0, some (⟨some "a", none, none⟩ : Waypoint)),
                    (waypointKey 1, some ⟨some "b", none, none⟩),
                    (waypointKey 2, some ⟨some "c", none, none⟩)] : WaypointMap).map
                      Prod.snd).eraseIdx 1).drop 1
          else (([(waypointKey 0, some (⟨some "a", none, none⟩ : Waypoint)),
                  (waypointKey 1, some ⟨some "b", none, none⟩),
                  (waypointKey 2, some ⟨some "c", none, none⟩)] : WaypointMap).map
                    Prod.snd).eraseIdx 1)
      ∧ (([(waypointKey 0, some (⟨some "a", none, none⟩ : Waypoint)),
           (waypointKey 1, some ⟨some "b", none, none⟩),
           (waypointKey 2, some ⟨some "c", none, none⟩)] : WaypointMap).length = 3
            ∧ (1 : Nat) = 1 →
          m.map Prod.snd =
            (([(waypointKey 0, some (⟨some "a", none, none⟩ : Waypoint)),
               (waypointKey 1, some ⟨some "b", none, none⟩),
               (waypointKey 2, some ⟨some "c", none, none⟩)] : WaypointMap).map
                 Prod.snd).eraseIdx 1
          ∧ m.length = 2) :=
  removeWaypoint_contiguous_reindex _ _ _ 1 false rfl rfl (by decide)

/-- C7: in `removeWaypoint`, when the removed waypoint has no valid address
the written transaction carries the input's `errorFields` and `routes`
unchanged; when it has a valid address the written transaction has
`errorFields.route = null` and `routes.route0.distance` and
`routes.route0.geometry.coordinates` null.  All other transaction fields are
the input values with defaults substituted only when absent. -/
theorem removeWaypoint_frame (tx : Transaction) (c : Comment)
    (wps : WaypointMap) (i : Nat) (wv : Option Waypoint) (isDraft : Bool)
    (hc : tx.comment = some c) (hw : c.waypoints = some wps)
    (hv : (wps.map Prod.snd)[i]? = some wv) :
    ∃ t : Transaction,
      writtenTransaction (removeWaypoint (some tx) (JSNum.int i) isDraft) = some t
      ∧ (waypointHasValidAddress (wv.getD emptyWaypoint) = false →
          t.errorFields = tx.errorFields ∧ t.routes = tx.routes)
      ∧ (waypointHasValidAddress (wv.getD emptyWaypoint) = true →
          t.errorFields = some ⟨none⟩
          ∧ t.routes = some ⟨some ⟨none, some ⟨none⟩⟩⟩)
      ∧ t.transactionID = some (tx.transactionID.getD "")
      ∧ t.amount = some (tx.amount.getD 0)
      ∧ t.billable = some (tx.billable.getD false)
      ∧ t.category = some (tx.category.getD "")
      ∧ t.created = some (tx.created.getD "")
      ∧ t.currency = some (tx.currency.getD "")
      ∧ t.merchant = some (tx.merchant.getD "")
      ∧ t.reportID = some (tx.reportID.getD "")
      ∧ t.tag = some (tx.tag.getD "")
      ∧ t.pendingAction = tx.pendingAction
      ∧ (t.comment.bind Comment.isLoading) = c.isLoading := by
  have hlen : i < (wps.map Prod.snd).length := by
    by_contra hcon
    rw [List.getElem?_eq_none (by omega)] at hv
    cases hv
  have hgot : (wps.map Prod.snd)[i] = wv := by
    have hx := List.getElem?_eq_getElem hlen
    rw [hv] at hx
    exact (Option.some.inj hx).symm
  have hstart : spliceStart (i : Int) wps.length = i := by
    unfold spliceStart
    rw [if_neg (by omega)]
    simp only [Int.toNat_ofNat]
    exact Nat.min_eq_left (Nat.le_of_lt (by simpa using hlen))
  have hdropwv : (wps.map Prod.snd).drop i = wv :: (wps.map Prod.snd).drop (i + 1) := by
    rw [List.drop_eq_getElem_cons hlen, hgot]
  cases hval : waypointHasValidAddress (wv.getD emptyWaypoint) with
  | false =>
    cases isDraft <;>
      (simp only [removeWaypoint, hc, hw, Option.some_bind, Option.getD_some,
        JSNum.toInt, List.length_map]
       rw [hstart, hdropwv]
       simp only [List.take_succ_cons, List.take_zero, List.length_cons,
         List.length_nil, List.head?_cons, Option.getD_some, hval]
       rw [if_neg (by simp)]
       simp only [writtenTransaction]
       refine ⟨_, rfl, fun _ => ⟨rfl, rfl⟩, ?_, rfl, rfl, rfl, rfl, rfl, rfl, rfl,
         rfl, rfl, rfl, rfl⟩
       intro hcontra
       cases hcontra)
  | true =>
    cases isDraft <;>
      (simp only [removeWaypoint, hc, hw, Option.some_bind, Option.getD_some,
        JSNum.toInt, List.length_map]
       rw [hstart, hdropwv]
       simp only [List.take_succ_cons, List.take_zero, List.length_cons,
         List.length_nil, List.head?_cons, Option.getD_some, hval]
       rw [if_neg (by simp)]
       simp only [writtenTransaction]
       refine ⟨_, rfl, ?_, fun _ => ⟨rfl, rfl⟩, rfl, rfl, rfl, rfl, rfl, rfl, rfl,
         rfl, rfl, rfl, rfl⟩
       intro hcontra
       cases hcontra)

/-- Witness for C7: removing a valid-address waypoint from a concrete
transaction that carried a route error clears the error and the route. -/
theorem removeWaypoint_frame_witness :
    ∃ t : Transaction,
      writtenTransaction
        (removeWaypoint
          (some { emptyTransaction with
                  errorFields := some ⟨some "oops"⟩,
                  comment := some ⟨some [(waypointKey 0, some ⟨some "a", none, none⟩),
                                         (waypointKey 1, some ⟨some "b", none, none⟩),
                                         (waypointKey 2, some ⟨some "c", none, none⟩)], none⟩ })
          (JSNum.int 1) false) = some t
      ∧ (waypointHasValidAddress
            ((some (⟨some "b", none, none⟩ : Waypoint)).getD emptyWaypoint) = true →
          t.errorFields = some ⟨none⟩
          ∧ t.routes = some ⟨some ⟨none, some ⟨none⟩⟩⟩) := by
  obtain ⟨t, h1, _, h3, _⟩ :=
    removeWaypoint_frame
      { emptyTransaction with
        errorFields := some ⟨some "oops"⟩,
        comment := some ⟨some [(waypointKey 0, some ⟨some "a", none, none⟩),
                               (waypointKey 1, some ⟨some "b", none, none⟩),
                               (waypointKey 2, some ⟨some "c", none, none⟩)], none⟩ }
      ⟨some [(waypointKey 0, some ⟨some "a", none, none⟩),
             (waypointKey 1, some ⟨some "b", none, none⟩),
             (waypointKey 2, some ⟨some "c", none, none⟩)], none⟩
      [(waypointKey 0, some ⟨some "a", none, none⟩),
       (waypointKey 1, some ⟨some "b", none, none⟩),
       (waypointKey 2, some ⟨some "c", none, none⟩)]
      1 (some ⟨some "b", none, none⟩) false rfl rfl (by decide)
  exact ⟨t, h1, h3⟩

end Txn
